import Mathlib

/-
Shallow embedding of the HyperTrack Cordova wrapper
(`@awesome-cordova-plugins/hyper-track`): the `Coordinates` validation
constructor and the `HyperTrack` facade that adapts the callback-pair
native SDK instance (`HyperTrackCordova`) into promises and observables.

Modelling conventions:
- JS numbers are `JSNum`: either an exact rational or `nan`; every
  ordering comparison against `nan` is `false`, as in JS.
- A native callback-pair method call is described by the finite trace of
  callback invocations the native layer performs on the two callbacks it
  received (`List (CbEvent α)`); the adapter's wiring of those callbacks
  into a promise cell or an rxjs observer is embedded as a fold over that
  trace.
- A JS promise cell is `Option (Settled α)`: `none` while pending, and
  only the first `resolve`/`reject` call settles it.
- Side effects toward the native layer are made explicit: each facade
  method returns, next to its promise/observer result, the list of native
  invocations its body performs (`HandleCall` for instance-handle methods,
  `PluginCall` for the static plugin stubs).
-/

/-- A JS `Error` value, carried across the native boundary unmodified. -/
structure JSError where
  message : String
deriving DecidableEq, Repr

/-- `CoordinatesValidationError extends Error`: the validation error thrown
by the `Coordinates` constructor. -/
structure CoordinatesValidationError where
  message : String
deriving DecidableEq, Repr

/-- A JS number: an exact rational value or `NaN`. -/
inductive JSNum where
  | num (q : ℚ)
  | nan
deriving DecidableEq, Repr

/-- JS `<` on numbers: any comparison involving `NaN` is false. -/
def JSNum.lt : JSNum → JSNum → Bool
  | .num a, .num b => decide (a < b)
  | _, _ => false

/-- JS `>` on numbers: any comparison involving `NaN` is false. -/
def JSNum.gt : JSNum → JSNum → Bool
  | .num a, .num b => decide (b < a)
  | _, _ => false

/-- `class Coordinates`: its constructor declares plain parameters
`latitude`, `longitude` and assigns no fields, so the class has no
members at all. -/
structure Coordinates where
deriving DecidableEq, Repr

/-- An arbitrary key-value object bag (`Object` payloads such as geotag
data and device metadata), passed through without interpretation. -/
structure JSObject where
  entries : List (String × String)
deriving DecidableEq, Repr

/-- An arbitrary JS value (`any` payloads delivered by the state-change
listeners). -/
inductive JSValue where
  | str (s : String)
  | boolean (b : Bool)
  | num (n : JSNum)
  | obj (o : JSObject)
  | undefined
deriving DecidableEq, Repr

/-- The body of `new Coordinates(latitude, longitude)`:
`if (latitude < -90.0 || latitude > 90.0 || longitude < -180.0 || longitude > 180.0)
 throw new CoordinatesValidationError(...)`, else construction succeeds. -/
def Coordinates.construct (latitude longitude : JSNum) :
    Except CoordinatesValidationError Coordinates :=
  if latitude.lt (.num (-90)) || latitude.gt (.num 90) ||
      longitude.lt (.num (-180)) || longitude.gt (.num 180) then
    .error ⟨"latitude and longitude should be of correct valaues"⟩
  else
    .ok ⟨⟩

/-- The opaque native SDK instance (`interface HyperTrackCordova`): its
methods are native entry points this layer never implements, so the handle
is modelled by its identity alone and invocations of its methods are
recorded as `HandleCall`s. -/
structure HyperTrackCordova where
  id : Nat
deriving DecidableEq, Repr

/-- One invocation of a method of the native SDK instance, with the
arguments the wrapper forwards positionally (callback arguments are
modelled separately, by the trace of their invocations). -/
inductive NativeCall where
  | getDeviceId
  | isRunning
  | isTracking
  | setDeviceName (name : String)
  | setDeviceMetadata (metadata : JSObject)
  | setTrackingNotificationProperties (title : String) (message : String)
  | addGeoTag (geotagData : JSObject) (expectedLocation : Option Coordinates)
  | requestPermissionsIfNecessary
  | allowMockLocations
  | syncDeviceSettings
  | start
  | stop
  | setAvailability (isAvailable : Bool)
  | getAvailability
  | trackingStateChange
  | disposeTrackingState
  | availabilityStateChange
  | disposeAvailabilityState
deriving DecidableEq, Repr

/-- An invocation of a native SDK instance method through a particular
handle. -/
abbrev HandleCall := HyperTrackCordova × NativeCall

/-- The native-call trace of the `Coordinates` constructor body: it only
range-checks its arguments and never invokes the native layer. -/
def Coordinates.constructorNativeCalls (latitude longitude : JSNum) : List HandleCall :=
  []

/-- One invocation of a native callback of a callback pair: the success
callback with its payload, or the failure callback with an error. -/
inductive CbEvent (α : Type) where
  | success (v : α)
  | failure (e : JSError)
deriving DecidableEq, Repr

/-- A settled JS promise: resolved with a value or rejected with an error. -/
inductive Settled (α : Type) where
  | resolved (v : α)
  | rejected (e : JSError)
deriving DecidableEq, Repr

/-- A JS promise cell: `none` while pending, `some` once settled. -/
abbrev PromiseState (α : Type) := Option (Settled α)

/-- `resolve v` on a promise cell: settles it only if still pending. -/
def resolveP {α : Type} (v : α) : PromiseState α → PromiseState α
  | none => some (.resolved v)
  | some s => some s

/-- `reject e` on a promise cell: settles it only if still pending. -/
def rejectP {α : Type} (e : JSError) : PromiseState α → PromiseState α
  | none => some (.rejected e)
  | some s => some s

/-- Replays a trace of native callback invocations against the two
callbacks the wrapper registered, threading the state they mutate. -/
def runCallbacks {α σ : Type} (onSuccess : α → σ → σ) (onFailure : JSError → σ → σ) :
    List (CbEvent α) → σ → σ
  | [], s => s
  | CbEvent.success v :: rest, s => runCallbacks onSuccess onFailure rest (onSuccess v s)
  | CbEvent.failure e :: rest, s => runCallbacks onSuccess onFailure rest (onFailure e s)

/-- The promise produced by the facade's standard wiring
`new Promise((resolve, reject) => nativeMethod(..., v => resolve(v), err => reject(err)))`,
given the native callback-invocation trace. -/
def promiseOfCallbacks {α : Type} (events : List (CbEvent α)) : PromiseState α :=
  runCallbacks (fun v => resolveP v) (fun e => rejectP e) events none

/-- An event delivered on an rxjs stream: `next` with a payload or a
terminal `error`. -/
inductive StreamEvent where
  | next (v : JSValue)
  | error (e : JSError)
deriving DecidableEq, Repr

/-- The state of an rxjs subscriber: the events delivered so far, and
whether it has been stopped by a terminal notification. -/
structure ObserverState where
  emitted : List StreamEvent
  stopped : Bool
deriving DecidableEq, Repr

/-- A fresh subscriber: nothing delivered, not stopped. -/
def ObserverState.initial : ObserverState := ⟨[], false⟩

/-- `observer.next(v)`: delivers `v` unless the subscriber is stopped. -/
def observerNext (v : JSValue) (s : ObserverState) : ObserverState :=
  if s.stopped then s else ⟨s.emitted ++ [.next v], false⟩

/-- `observer.error(e)`: delivers the terminal error and stops the
subscriber, unless it is already stopped. -/
def observerError (e : JSError) (s : ObserverState) : ObserverState :=
  if s.stopped then s else ⟨s.emitted ++ [.error e], true⟩

/-- `class HyperTrack`: the facade instance, whose only state is the
native SDK handle stored by its private constructor
(`private constructor(private cordovaInstanceHandle: HyperTrackCordova)`). -/
structure HyperTrack where
  cordovaInstanceHandle : HyperTrackCordova
deriving DecidableEq, Repr

/-- One invocation of a static `HyperTrackPlugin` stub (`@Cordova()`
methods dispatched to the global plugin object). `initSdk` records
`HyperTrackPlugin.initialize(publishableKey)`. -/
inductive PluginCall where
  | initSdk (publishableKey : String)
  | getBlockers
  | enableDebugLogging
deriving DecidableEq, Repr

/-- A blocker entry surfaced by `getBlockers`. -/
structure Blocker where
  userActionTitle : String
  userActionCTA : String
  userActionExplanation : String
  resolve : Unit → Unit

/-- `getDeviceId()`: forwards to `cordovaInstanceHandle.getDeviceId`,
resolving with the received device id, rejecting with the native error. -/
def HyperTrack.getDeviceId (self : HyperTrack) (native : List (CbEvent String)) :
    List HandleCall × PromiseState String :=
  ([(self.cordovaInstanceHandle, .getDeviceId)], promiseOfCallbacks native)

/-- `isRunning()`: forwards to `cordovaInstanceHandle.isRunning`. -/
def HyperTrack.isRunning (self : HyperTrack) (native : List (CbEvent Bool)) :
    List HandleCall × PromiseState Bool :=
  ([(self.cordovaInstanceHandle, .isRunning)], promiseOfCallbacks native)

/-- `isTracking()`: forwards to `cordovaInstanceHandle.isTracking`. -/
def HyperTrack.isTracking (self : HyperTrack) (native : List (CbEvent Bool)) :
    List HandleCall × PromiseState Bool :=
  ([(self.cordovaInstanceHandle, .isTracking)], promiseOfCallbacks native)

/-- `setDeviceName(name)`: forwards the name to
`cordovaInstanceHandle.setDeviceName`, resolving with no value. -/
def HyperTrack.setDeviceName (self : HyperTrack) (name : String)
    (native : List (CbEvent PUnit)) : List HandleCall × PromiseState PUnit :=
  ([(self.cordovaInstanceHandle, .setDeviceName name)], promiseOfCallbacks native)

/-- `setDeviceMetadata(metadata)`: forwards the metadata bag to
`cordovaInstanceHandle.setDeviceMetadata`. -/
def HyperTrack.setDeviceMetadata (self : HyperTrack) (metadata : JSObject)
    (native : List (CbEvent PUnit)) : List HandleCall × PromiseState PUnit :=
  ([(self.cordovaInstanceHandle, .setDeviceMetadata metadata)], promiseOfCallbacks native)

/-- `setTrackingNotificationProperties(title, message)`: forwards both
strings to the native method. -/
def HyperTrack.setTrackingNotificationProperties (self : HyperTrack)
    (title message : String) (native : List (CbEvent PUnit)) :
    List HandleCall × PromiseState PUnit :=
  ([(self.cordovaInstanceHandle, .setTrackingNotificationProperties title message)],
    promiseOfCallbacks native)

/-- `addGeotag(geotagData, expectedLocation?)`: forwards both arguments to
`cordovaInstanceHandle.addGeoTag`. -/
def HyperTrack.addGeotag (self : HyperTrack) (geotagData : JSObject)
    (expectedLocation : Option Coordinates) (native : List (CbEvent PUnit)) :
    List HandleCall × PromiseState PUnit :=
  ([(self.cordovaInstanceHandle, .addGeoTag geotagData expectedLocation)],
    promiseOfCallbacks native)

/-- `requestPermissionsIfNecessary()`. -/
def HyperTrack.requestPermissionsIfNecessary (self : HyperTrack)
    (native : List (CbEvent PUnit)) : List HandleCall × PromiseState PUnit :=
  ([(self.cordovaInstanceHandle, .requestPermissionsIfNecessary)], promiseOfCallbacks native)

/-- `allowMockLocations()`. -/
def HyperTrack.allowMockLocations (self : HyperTrack) (native : List (CbEvent PUnit)) :
    List HandleCall × PromiseState PUnit :=
  ([(self.cordovaInstanceHandle, .allowMockLocations)], promiseOfCallbacks native)

/-- `syncDeviceSettings()`. -/
def HyperTrack.syncDeviceSettings (self : HyperTrack) (native : List (CbEvent PUnit)) :
    List HandleCall × PromiseState PUnit :=
  ([(self.cordovaInstanceHandle, .syncDeviceSettings)], promiseOfCallbacks native)

/-- `start()`. -/
def HyperTrack.start (self : HyperTrack) (native : List (CbEvent PUnit)) :
    List HandleCall × PromiseState PUnit :=
  ([(self.cordovaInstanceHandle, .start)], promiseOfCallbacks native)

/-- `stop()`. -/
def HyperTrack.stop (self : HyperTrack) (native : List (CbEvent PUnit)) :
    List HandleCall × PromiseState PUnit :=
  ([(self.cordovaInstanceHandle, .stop)], promiseOfCallbacks native)

/-- `setAvailability(isAvailable)`: forwards the flag. -/
def HyperTrack.setAvailability (self : HyperTrack) (isAvailable : Bool)
    (native : List (CbEvent PUnit)) : List HandleCall × PromiseState PUnit :=
  ([(self.cordovaInstanceHandle, .setAvailability isAvailable)], promiseOfCallbacks native)

/-- `getAvailability()`: resolves with the availability string. -/
def HyperTrack.getAvailability (self : HyperTrack) (native : List (CbEvent String)) :
    List HandleCall × PromiseState String :=
  ([(self.cordovaInstanceHandle, .getAvailability)], promiseOfCallbacks native)

/-- `trackingStateChange()`: subscribing runs
`cordovaInstanceHandle.trackingStateChange(res => observer.next(res), err => observer.error(err))`
on a fresh subscriber; the result is the subscriber state after the native
callback-invocation trace. -/
def HyperTrack.trackingStateChange (self : HyperTrack) (native : List (CbEvent JSValue)) :
    List HandleCall × ObserverState :=
  ([(self.cordovaInstanceHandle, .trackingStateChange)],
    runCallbacks (fun res => observerNext res) (fun err => observerError err) native
      ObserverState.initial)

/-- `availabilityStateChange()`: same wiring as `trackingStateChange`,
against `cordovaInstanceHandle.availabilityStateChange`. -/
def HyperTrack.availabilityStateChange (self : HyperTrack) (native : List (CbEvent JSValue)) :
    List HandleCall × ObserverState :=
  ([(self.cordovaInstanceHandle, .availabilityStateChange)],
    runCallbacks (fun res => observerNext res) (fun err => observerError err) native
      ObserverState.initial)

/-- `disposeTrackingState()`: forwards to
`cordovaInstanceHandle.disposeTrackingState` with the standard promise
wiring. The body references no observer, so the subscriber state of the
tracking stream, threaded explicitly, passes through untouched. -/
def HyperTrack.disposeTrackingState (self : HyperTrack) (native : List (CbEvent PUnit))
    (trackingObserver : ObserverState) :
    (List HandleCall × PromiseState PUnit) × ObserverState :=
  (([(self.cordovaInstanceHandle, .disposeTrackingState)], promiseOfCallbacks native),
    trackingObserver)

/-- `disposeAvailabilityState()`: forwards to
`cordovaInstanceHandle.disposeAvailabilityState`; the availability
stream's subscriber state passes through untouched. -/
def HyperTrack.disposeAvailabilityState (self : HyperTrack) (native : List (CbEvent PUnit))
    (availabilityObserver : ObserverState) :
    (List HandleCall × PromiseState PUnit) × ObserverState :=
  (([(self.cordovaInstanceHandle, .disposeAvailabilityState)], promiseOfCallbacks native),
    availabilityObserver)

/-- `static enableDebugLogging(): void`: calls the plugin stub and
discards the promise it returns, whatever its outcome. -/
def HyperTrack.enableDebugLogging (nativeOutcome : PromiseState JSValue) :
    List PluginCall × PUnit :=
  ([.enableDebugLogging], PUnit.unit)

/-- `static initialize(publishableKey)`: calls
`new HyperTrackPlugin().initialize(publishableKey)` and wraps the resolved
native handle in a new `HyperTrack` (`.then(inst => resolve(new HyperTrack(inst)))`),
passing a rejection through unchanged (`.catch(err => reject(err))`). -/
def HyperTrack.initialize (publishableKey : String)
    (native : PromiseState HyperTrackCordova) :
    List PluginCall × PromiseState HyperTrack :=
  ([ PluginCall.initSdk publishableKey],
    match native with
    | none => none
    | some (.resolved cordovaInstance) => some (.resolved ⟨cordovaInstance⟩)
    | some (.rejected err) => some (.rejected err))

/-- `static getBlockers()`: returns the plugin stub's promise unchanged. -/
def HyperTrack.getBlockers (native : PromiseState (List Blocker)) :
    List PluginCall × PromiseState (List Blocker) :=
  ([.getBlockers], native)

/-- The instance methods of the `HyperTrack` facade. -/
inductive InstanceOp where
  | getDeviceId
  | isRunning
  | isTracking
  | setDeviceName
  | setDeviceMetadata
  | setTrackingNotificationProperties
  | addGeotag
  | requestPermissionsIfNecessary
  | allowMockLocations
  | syncDeviceSettings
  | start
  | stop
  | setAvailability
  | getAvailability
  | trackingStateChange
  | disposeTrackingState
  | availabilityStateChange
  | disposeAvailabilityState
deriving DecidableEq, Repr

/-- The return style of each instance method, read off its declared
return type in the source: `Observable` only for the two state-change
listeners, `Promise` for every other instance method. -/
def InstanceOp.returnsObservable : InstanceOp → Bool
  | .trackingStateChange => true
  | .availabilityStateChange => true
  | _ => false

/-
Helper lemmas shared by the claims below.
-/

/-- A promise cell that is already settled is unchanged by any further
callback invocations of the standard promise wiring. -/
theorem runCallbacks_promise_settled {α : Type} :
    ∀ (ev : List (CbEvent α)) (x : Settled α),
      runCallbacks (fun v => resolveP v) (fun e => rejectP e) ev (some x) = some x
  | [], _ => rfl
  | CbEvent.success _ :: rest, x => runCallbacks_promise_settled rest x
  | CbEvent.failure _ :: rest, x => runCallbacks_promise_settled rest x

/-- The standard promise wiring settles on the first callback invocation:
later invocations are ignored. -/
theorem promiseOfCallbacks_first {α : Type} (e : CbEvent α) (rest : List (CbEvent α)) :
    promiseOfCallbacks (e :: rest) = promiseOfCallbacks [e] := by
  cases e with
  | success v => exact runCallbacks_promise_settled rest (Settled.resolved v)
  | failure err => exact runCallbacks_promise_settled rest (Settled.rejected err)

/-- A rejection of the standard promise wiring always carries an error
that the native failure callback was invoked with. -/
theorem promiseOfCallbacks_rejected_mem {α : Type} :
    ∀ (ev : List (CbEvent α)) (err : JSError),
      promiseOfCallbacks ev = some (.rejected err) → CbEvent.failure err ∈ ev := by
  intro ev err h
  cases ev with
  | nil => simp [promiseOfCallbacks, runCallbacks] at h
  | cons c rest =>
      cases c with
      | success v =>
          have h2 : promiseOfCallbacks (CbEvent.success v :: rest) =
              some (.resolved v) := runCallbacks_promise_settled rest (Settled.resolved v)
          have h3 := h2.symm.trans h
          simp only [Option.some.injEq] at h3
          cases h3
      | failure e2 =>
          have h2 : promiseOfCallbacks (CbEvent.failure e2 :: rest) =
              some (.rejected e2) := runCallbacks_promise_settled rest (Settled.rejected e2)
          have h3 := h2.symm.trans h
          simp only [Option.some.injEq, Settled.rejected.injEq] at h3
          subst h3
          exact List.mem_cons_self _ _

/-- Replaying a concatenation of callback traces composes. -/
theorem runCallbacks_append {α σ : Type} (f : α → σ → σ) (g : JSError → σ → σ) :
    ∀ (l1 l2 : List (CbEvent α)) (s : σ),
      runCallbacks f g (l1 ++ l2) s = runCallbacks f g l2 (runCallbacks f g l1 s)
  | [], _, _ => rfl
  | CbEvent.success v :: rest, l2, s => runCallbacks_append f g rest l2 (f v s)
  | CbEvent.failure e :: rest, l2, s => runCallbacks_append f g rest l2 (g e s)

/-- A trace of success-callback invocations delivers exactly one `next`
event per invocation, in order, on a subscriber that is not stopped. -/
theorem observer_successes :
    ∀ (vs : List JSValue) (s : ObserverState), s.stopped = false →
      runCallbacks observerNext observerError (vs.map CbEvent.success) s =
        ⟨s.emitted ++ vs.map StreamEvent.next, false⟩ := by
  intro vs
  induction vs with
  | nil =>
      intro s h
      cases s
      simp_all [runCallbacks]
  | cons v vs ih =>
      intro s h
      have hstep : observerNext v s = ⟨s.emitted ++ [StreamEvent.next v], false⟩ := by
        simp [observerNext, h]
      simp only [List.map_cons, runCallbacks, hstep]
      rw [ih ⟨s.emitted ++ [StreamEvent.next v], false⟩ rfl]
      simp

/-- Every `error` event a subscriber holds after a callback trace was
either already there or came from a failure-callback invocation of the
trace. -/
theorem observer_error_only_native :
    ∀ (ev : List (CbEvent JSValue)) (s : ObserverState) (e : JSError),
      StreamEvent.error e ∈ (runCallbacks observerNext observerError ev s).emitted →
      StreamEvent.error e ∈ s.emitted ∨ CbEvent.failure e ∈ ev := by
  intro ev
  induction ev with
  | nil => intro s e h; exact Or.inl h
  | cons c rest ih =>
      intro s e h
      cases c with
      | success v =>
          rcases ih (observerNext v s) e h with hmem | hmem
          · by_cases hs : s.stopped = true
            · have h1 : StreamEvent.error e ∈ s.emitted := by
                simpa [observerNext, hs] using hmem
              exact Or.inl h1
            · have h1 : StreamEvent.error e ∈ s.emitted := by
                simpa [observerNext, hs] using hmem
              exact Or.inl h1
          · exact Or.inr (List.mem_cons_of_mem _ hmem)
      | failure e2 =>
          rcases ih (observerError e2 s) e h with hmem | hmem
          · by_cases hs : s.stopped = true
            · have h1 : StreamEvent.error e ∈ s.emitted := by
                simpa [observerError, hs] using hmem
              exact Or.inl h1
            · have h1 : StreamEvent.error e ∈ s.emitted ∨ e = e2 := by
                simpa [observerError, hs] using hmem
              rcases h1 with h1 | h1
              · exact Or.inl h1
              · subst h1
                exact Or.inr (List.mem_cons_self _ _)
          · exact Or.inr (List.mem_cons_of_mem _ hmem)

/-- C1: for every numeric latitude outside [-90, 90] or numeric longitude
outside [-180, 180] the `Coordinates` constructor fails with a
`CoordinatesValidationError`; for every numeric latitude in [-90, 90] and
longitude in [-180, 180] construction succeeds; in both cases the
constructor body performs no native invocation. -/
theorem C1_coordinates_range_validation :
    ∀ lat lng : ℚ,
      ((lat < -90 ∨ 90 < lat ∨ lng < -180 ∨ 180 < lng) →
        Coordinates.construct (.num lat) (.num lng) =
          .error ⟨"latitude and longitude should be of correct valaues"⟩) ∧
      ((-90 ≤ lat ∧ lat ≤ 90 ∧ -180 ≤ lng ∧ lng ≤ 180) →
        Coordinates.construct (.num lat) (.num lng) = .ok ⟨⟩) ∧
      Coordinates.constructorNativeCalls (.num lat) (.num lng) = [] := by
  intro lat lng
  refine ⟨fun h => ?_, fun h => ?_, rfl⟩
  · have hb : (JSNum.lt (.num lat) (.num (-90)) || JSNum.gt (.num lat) (.num 90) ||
        JSNum.lt (.num lng) (.num (-180)) || JSNum.gt (.num lng) (.num 180)) = true := by
      simp only [JSNum.lt, JSNum.gt, Bool.or_eq_true, decide_eq_true_eq]
      tauto
    simp [Coordinates.construct, hb]
  · obtain ⟨h1, h2, h3, h4⟩ := h
    have hb : (JSNum.lt (.num lat) (.num (-90)) || JSNum.gt (.num lat) (.num 90) ||
        JSNum.lt (.num lng) (.num (-180)) || JSNum.gt (.num lng) (.num 180)) = false := by
      simp only [JSNum.lt, JSNum.gt, Bool.or_eq_false_iff]
      exact ⟨⟨⟨decide_eq_false (not_lt.2 h1), decide_eq_false (not_lt.2 h2)⟩,
        decide_eq_false (not_lt.2 h3)⟩, decide_eq_false (not_lt.2 h4)⟩
    simp [Coordinates.construct, hb]

/-- C8: `NaN` passes the constructor's range check, because every
comparison against `NaN` is false: a `NaN` latitude validates exactly like
the in-range latitude 0 (and likewise for longitude), and constructing
with `NaN` in either or both positions succeeds. -/
theorem C8_nan_passes_range_check :
    (∀ lng : JSNum, Coordinates.construct .nan lng = Coordinates.construct (.num 0) lng) ∧
    (∀ lat : JSNum, Coordinates.construct lat .nan = Coordinates.construct lat (.num 0)) ∧
    Coordinates.construct .nan (.num 0) = .ok ⟨⟩ ∧
    Coordinates.construct (.num 0) .nan = .ok ⟨⟩ ∧
    Coordinates.construct .nan .nan = .ok ⟨⟩ := by
  refine ⟨fun lng => ?_, fun lat => ?_, rfl, rfl, rfl⟩
  · cases lng <;> simp [Coordinates.construct, JSNum.lt, JSNum.gt] <;> norm_num
  · cases lat <;> simp [Coordinates.construct, JSNum.lt, JSNum.gt] <;> norm_num

/-- C9: a successfully constructed `Coordinates` retains neither input:
the class declares no members, so any two `Coordinates` values are
indistinguishable, and `addGeotag` performs the same native invocation
whichever successfully constructed `Coordinates` it is handed as the
expected location. -/
theorem C9_coordinates_retain_nothing :
    (∀ c1 c2 : Coordinates, c1 = c2) ∧
    (∀ (lat lng lat2 lng2 : JSNum) (c c2 : Coordinates) (self : HyperTrack)
        (geotagData : JSObject) (native : List (CbEvent PUnit)),
      Coordinates.construct lat lng = .ok c →
      Coordinates.construct lat2 lng2 = .ok c2 →
      HyperTrack.addGeotag self geotagData (some c) native =
        HyperTrack.addGeotag self geotagData (some c2) native) := by
  refine ⟨fun c1 c2 => ?_, fun _ _ _ _ c c2 _ _ _ _ _ => ?_⟩
  · cases c1; cases c2; rfl
  · cases c; cases c2; rfl

/-- C10: the static `enableDebugLogging` discards the native promise: its
result is the same unit whatever the native outcome, so a native failure
is never surfaced — unlike, for instance, `getDeviceId`, whose result
distinguishes a native failure from a native success. -/
theorem C10_debug_logging_discards_failure :
    (∀ nativeOutcome : PromiseState JSValue,
      HyperTrack.enableDebugLogging nativeOutcome =
        ([PluginCall.enableDebugLogging], PUnit.unit)) ∧
    (HyperTrack.getDeviceId ⟨⟨0⟩⟩ [.failure ⟨"native failure"⟩]).2 ≠
      (HyperTrack.getDeviceId ⟨⟨0⟩⟩ [.success "device-123"]).2 := by
  exact ⟨fun _ => rfl, by decide⟩

/-- C2: for every promise-returning facade operation and every argument
list, a native success-callback invocation resolves the returned promise
with exactly the delivered value, a native failure-callback invocation
rejects it with exactly the delivered error unmodified, and the only side
effect is the single forwarding native invocation with the arguments
passed through unchanged. -/
theorem C2_promise_ops_passthrough :
    ∀ (self : HyperTrack) (name title message deviceId availability : String)
      (metadata geotagData : JSObject) (expectedLocation : Option Coordinates)
      (isAvailable flag : Bool) (err : JSError) (obs : ObserverState),
      (HyperTrack.getDeviceId self [.success deviceId] =
        ([(self.cordovaInstanceHandle, .getDeviceId)], some (.resolved deviceId)) ∧
       HyperTrack.getDeviceId self [.failure err] =
        ([(self.cordovaInstanceHandle, .getDeviceId)], some (.rejected err))) ∧
      (HyperTrack.isRunning self [.success flag] =
        ([(self.cordovaInstanceHandle, .isRunning)], some (.resolved flag)) ∧
       HyperTrack.isRunning self [.failure err] =
        ([(self.cordovaInstanceHandle, .isRunning)], some (.rejected err))) ∧
      (HyperTrack.isTracking self [.success flag] =
        ([(self.cordovaInstanceHandle, .isTracking)], some (.resolved flag)) ∧
       HyperTrack.isTracking self [.failure err] =
        ([(self.cordovaInstanceHandle, .isTracking)], some (.rejected err))) ∧
      (HyperTrack.setDeviceName self name [.success PUnit.unit] =
        ([(self.cordovaInstanceHandle, .setDeviceName name)], some (.resolved PUnit.unit)) ∧
       HyperTrack.setDeviceName self name [.failure err] =
        ([(self.cordovaInstanceHandle, .setDeviceName name)], some (.rejected err))) ∧
      (HyperTrack.setDeviceMetadata self metadata [.success PUnit.unit] =
        ([(self.cordovaInstanceHandle, .setDeviceMetadata metadata)],
          some (.resolved PUnit.unit)) ∧
       HyperTrack.setDeviceMetadata self metadata [.failure err] =
        ([(self.cordovaInstanceHandle, .setDeviceMetadata metadata)], some (.rejected err))) ∧
      (HyperTrack.setTrackingNotificationProperties self title message [.success PUnit.unit] =
        ([(self.cordovaInstanceHandle, .setTrackingNotificationProperties title message)],
          some (.resolved PUnit.unit)) ∧
       HyperTrack.setTrackingNotificationProperties self title message [.failure err] =
        ([(self.cordovaInstanceHandle, .setTrackingNotificationProperties title message)],
          some (.rejected err))) ∧
      (HyperTrack.addGeotag self geotagData expectedLocation [.success PUnit.unit] =
        ([(self.cordovaInstanceHandle, .addGeoTag geotagData expectedLocation)],
          some (.resolved PUnit.unit)) ∧
       HyperTrack.addGeotag self geotagData expectedLocation [.failure err] =
        ([(self.cordovaInstanceHandle, .addGeoTag geotagData expectedLocation)],
          some (.rejected err))) ∧
      (HyperTrack.requestPermissionsIfNecessary self [.success PUnit.unit] =
        ([(self.cordovaInstanceHandle, .requestPermissionsIfNecessary)],
          some (.resolved PUnit.unit)) ∧
       HyperTrack.requestPermissionsIfNecessary self [.failure err] =
        ([(self.cordovaInstanceHandle, .requestPermissionsIfNecessary)],
          some (.rejected err))) ∧
      (HyperTrack.allowMockLocations self [.success PUnit.unit] =
        ([(self.cordovaInstanceHandle, .allowMockLocations)], some (.resolved PUnit.unit)) ∧
       HyperTrack.allowMockLocations self [.failure err] =
        ([(self.cordovaInstanceHandle, .allowMockLocations)], some (.rejected err))) ∧
      (HyperTrack.syncDeviceSettings self [.success PUnit.unit] =
        ([(self.cordovaInstanceHandle, .syncDeviceSettings)], some (.resolved PUnit.unit)) ∧
       HyperTrack.syncDeviceSettings self [.failure err] =
        ([(self.cordovaInstanceHandle, .syncDeviceSettings)], some (.rejected err))) ∧
      (HyperTrack.start self [.success PUnit.unit] =
        ([(self.cordovaInstanceHandle, .start)], some (.resolved PUnit.unit)) ∧
       HyperTrack.start self [.failure err] =
        ([(self.cordovaInstanceHandle, .start)], some (.rejected err))) ∧
      (HyperTrack.stop self [.success PUnit.unit] =
        ([(self.cordovaInstanceHandle, .stop)], some (.resolved PUnit.unit)) ∧
       HyperTrack.stop self [.failure err] =
        ([(self.cordovaInstanceHandle, .stop)], some (.rejected err))) ∧
      (HyperTrack.setAvailability self isAvailable [.success PUnit.unit] =
        ([(self.cordovaInstanceHandle, .setAvailability isAvailable)],
          some (.resolved PUnit.unit)) ∧
       HyperTrack.setAvailability self isAvailable [.failure err] =
        ([(self.cordovaInstanceHandle, .setAvailability isAvailable)],
          some (.rejected err))) ∧
      (HyperTrack.getAvailability self [.success availability] =
        ([(self.cordovaInstanceHandle, .getAvailability)], some (.resolved availability)) ∧
       HyperTrack.getAvailability self [.failure err] =
        ([(self.cordovaInstanceHandle, .getAvailability)], some (.rejected err))) ∧
      ((HyperTrack.disposeTrackingState self [.success PUnit.unit] obs).1 =
        ([(self.cordovaInstanceHandle, .disposeTrackingState)], some (.resolved PUnit.unit)) ∧
       (HyperTrack.disposeTrackingState self [.failure err] obs).1 =
        ([(self.cordovaInstanceHandle, .disposeTrackingState)], some (.rejected err))) ∧
      ((HyperTrack.disposeAvailabilityState self [.success PUnit.unit] obs).1 =
        ([(self.cordovaInstanceHandle, .disposeAvailabilityState)],
          some (.resolved PUnit.unit)) ∧
       (HyperTrack.disposeAvailabilityState self [.failure err] obs).1 =
        ([(self.cordovaInstanceHandle, .disposeAvailabilityState)],
          some (.rejected err))) := by
  intros
  exact ⟨⟨rfl, rfl⟩, ⟨rfl, rfl⟩, ⟨rfl, rfl⟩, ⟨rfl, rfl⟩, ⟨rfl, rfl⟩, ⟨rfl, rfl⟩,
    ⟨rfl, rfl⟩, ⟨rfl, rfl⟩, ⟨rfl, rfl⟩, ⟨rfl, rfl⟩, ⟨rfl, rfl⟩, ⟨rfl, rfl⟩,
    ⟨rfl, rfl⟩, ⟨rfl, rfl⟩, ⟨rfl, rfl⟩, ⟨rfl, rfl⟩⟩

/-- C3: for both stream-returning operations, a finite trace of native
success-callback invocations delivers exactly one `next` event per
invocation, in the order fired, without terminating the stream; a
failure-callback invocation after them terminates the stream with exactly
that error. -/
theorem C3_stream_ops_event_delivery :
    ∀ (self : HyperTrack) (vs : List JSValue) (err : JSError),
      (HyperTrack.trackingStateChange self (vs.map CbEvent.success)).2 =
        ⟨vs.map StreamEvent.next, false⟩ ∧
      (HyperTrack.trackingStateChange self
          (vs.map CbEvent.success ++ [CbEvent.failure err])).2 =
        ⟨vs.map StreamEvent.next ++ [StreamEvent.error err], true⟩ ∧
      (HyperTrack.availabilityStateChange self (vs.map CbEvent.success)).2 =
        ⟨vs.map StreamEvent.next, false⟩ ∧
      (HyperTrack.availabilityStateChange self
          (vs.map CbEvent.success ++ [CbEvent.failure err])).2 =
        ⟨vs.map StreamEvent.next ++ [StreamEvent.error err], true⟩ := by
  intro self vs err
  have hsucc : runCallbacks observerNext observerError (vs.map CbEvent.success)
      ObserverState.initial = ⟨vs.map StreamEvent.next, false⟩ := by
    simpa [ObserverState.initial] using observer_successes vs ObserverState.initial rfl
  have hfail : runCallbacks observerNext observerError
      (vs.map CbEvent.success ++ [CbEvent.failure err]) ObserverState.initial =
      ⟨vs.map StreamEvent.next ++ [StreamEvent.error err], true⟩ := by
    rw [runCallbacks_append, hsucc]
    simp [runCallbacks, observerError]
  exact ⟨hsucc, hfail, hsucc, hfail⟩

/-- C4: each stream's paired disposal operation performs exactly one
native invocation — the corresponding native disposal method — and leaves
the associated stream's subscriber state untouched, so it emits no
event. -/
theorem C4_dispose_ops_single_native_call :
    ∀ (self : HyperTrack) (native : List (CbEvent PUnit))
      (trackingObserver availabilityObserver : ObserverState),
      (HyperTrack.disposeTrackingState self native trackingObserver).1.1 =
        [(self.cordovaInstanceHandle, .disposeTrackingState)] ∧
      (HyperTrack.disposeTrackingState self native trackingObserver).2 =
        trackingObserver ∧
      (HyperTrack.disposeAvailabilityState self native availabilityObserver).1.1 =
        [(self.cordovaInstanceHandle, .disposeAvailabilityState)] ∧
      (HyperTrack.disposeAvailabilityState self native availabilityObserver).2 =
        availabilityObserver := by
  intros
  exact ⟨rfl, rfl, rfl, rfl⟩

/-- C5: exactly the two state-change listeners are declared with an
`Observable` return type, and every other instance operation's promise
settles at most once: its outcome is fixed by the first native callback
invocation, whatever further invocations follow. -/
theorem C5_return_style_classification :
    (∀ op : InstanceOp, op.returnsObservable = true ↔
      (op = InstanceOp.trackingStateChange ∨ op = InstanceOp.availabilityStateChange)) ∧
    (∀ (self : HyperTrack) (e : CbEvent String) (rest : List (CbEvent String)),
      (HyperTrack.getDeviceId self (e :: rest)).2 = (HyperTrack.getDeviceId self [e]).2) ∧
    (∀ (self : HyperTrack) (e : CbEvent Bool) (rest : List (CbEvent Bool)),
      (HyperTrack.isRunning self (e :: rest)).2 = (HyperTrack.isRunning self [e]).2) ∧
    (∀ (self : HyperTrack) (e : CbEvent Bool) (rest : List (CbEvent Bool)),
      (HyperTrack.isTracking self (e :: rest)).2 = (HyperTrack.isTracking self [e]).2) ∧
    (∀ (self : HyperTrack) (name : String) (e : CbEvent PUnit) (rest : List (CbEvent PUnit)),
      (HyperTrack.setDeviceName self name (e :: rest)).2 =
        (HyperTrack.setDeviceName self name [e]).2) ∧
    (∀ (self : HyperTrack) (metadata : JSObject) (e : CbEvent PUnit)
        (rest : List (CbEvent PUnit)),
      (HyperTrack.setDeviceMetadata self metadata (e :: rest)).2 =
        (HyperTrack.setDeviceMetadata self metadata [e]).2) ∧
    (∀ (self : HyperTrack) (title message : String) (e : CbEvent PUnit)
        (rest : List (CbEvent PUnit)),
      (HyperTrack.setTrackingNotificationProperties self title message (e :: rest)).2 =
        (HyperTrack.setTrackingNotificationProperties self title message [e]).2) ∧
    (∀ (self : HyperTrack) (geotagData : JSObject) (expectedLocation : Option Coordinates)
        (e : CbEvent PUnit) (rest : List (CbEvent PUnit)),
      (HyperTrack.addGeotag self geotagData expectedLocation (e :: rest)).2 =
        (HyperTrack.addGeotag self geotagData expectedLocation [e]).2) ∧
    (∀ (self : HyperTrack) (e : CbEvent PUnit) (rest : List (CbEvent PUnit)),
      (HyperTrack.requestPermissionsIfNecessary self (e :: rest)).2 =
        (HyperTrack.requestPermissionsIfNecessary self [e]).2) ∧
    (∀ (self : HyperTrack) (e : CbEvent PUnit) (rest : List (CbEvent PUnit)),
      (HyperTrack.allowMockLocations self (e :: rest)).2 =
        (HyperTrack.allowMockLocations self [e]).2) ∧
    (∀ (self : HyperTrack) (e : CbEvent PUnit) (rest : List (CbEvent PUnit)),
      (HyperTrack.syncDeviceSettings self (e :: rest)).2 =
        (HyperTrack.syncDeviceSettings self [e]).2) ∧
    (∀ (self : HyperTrack) (e : CbEvent PUnit) (rest : List (CbEvent PUnit)),
      (HyperTrack.start self (e :: rest)).2 = (HyperTrack.start self [e]).2) ∧
    (∀ (self : HyperTrack) (e : CbEvent PUnit) (rest : List (CbEvent PUnit)),
      (HyperTrack.stop self (e :: rest)).2 = (HyperTrack.stop self [e]).2) ∧
    (∀ (self : HyperTrack) (isAvailable : Bool) (e : CbEvent PUnit)
        (rest : List (CbEvent PUnit)),
      (HyperTrack.setAvailability self isAvailable (e :: rest)).2 =
        (HyperTrack.setAvailability self isAvailable [e]).2) ∧
    (∀ (self : HyperTrack) (e : CbEvent String) (rest : List (CbEvent String)),
      (HyperTrack.getAvailability self (e :: rest)).2 =
        (HyperTrack.getAvailability self [e]).2) ∧
    (∀ (self : HyperTrack) (obs : ObserverState) (e : CbEvent PUnit)
        (rest : List (CbEvent PUnit)),
      (HyperTrack.disposeTrackingState self (e :: rest) obs).1.2 =
        (HyperTrack.disposeTrackingState self [e] obs).1.2) ∧
    (∀ (self : HyperTrack) (obs : ObserverState) (e : CbEvent PUnit)
        (rest : List (CbEvent PUnit)),
      (HyperTrack.disposeAvailabilityState self (e :: rest) obs).1.2 =
        (HyperTrack.disposeAvailabilityState self [e] obs).1.2) := by
  refine ⟨fun op => ?_, fun _ e rest => promiseOfCallbacks_first e rest,
    fun _ e rest => promiseOfCallbacks_first e rest,
    fun _ e rest => promiseOfCallbacks_first e rest,
    fun _ _ e rest => promiseOfCallbacks_first e rest,
    fun _ _ e rest => promiseOfCallbacks_first e rest,
    fun _ _ _ e rest => promiseOfCallbacks_first e rest,
    fun _ _ _ e rest => promiseOfCallbacks_first e rest,
    fun _ e rest => promiseOfCallbacks_first e rest,
    fun _ e rest => promiseOfCallbacks_first e rest,
    fun _ e rest => promiseOfCallbacks_first e rest,
    fun _ e rest => promiseOfCallbacks_first e rest,
    fun _ e rest => promiseOfCallbacks_first e rest,
    fun _ _ e rest => promiseOfCallbacks_first e rest,
    fun _ e rest => promiseOfCallbacks_first e rest,
    fun _ _ e rest => promiseOfCallbacks_first e rest,
    fun _ _ e rest => promiseOfCallbacks_first e rest⟩
  cases op <;> simp [InstanceOp.returnsObservable]

/-- C6: every facade operation other than the `Coordinates` constructor
surfaces only errors received from the native layer, unmodified: a
rejection of any promise-returning operation carries an error that the
native failure callback was invoked with (or, for the static stubs, that
the native plugin promise rejected with), every `error` event on a stream
came from the native failure callback, and `enableDebugLogging` surfaces
nothing at all. -/
theorem C6_errors_originate_natively :
    ∀ (self : HyperTrack) (publishableKey name title message : String)
      (metadata geotagData : JSObject) (expectedLocation : Option Coordinates)
      (isAvailable : Bool) (err : JSError) (obs : ObserverState)
      (evS evA : List (CbEvent String)) (evB : List (CbEvent Bool))
      (evU : List (CbEvent PUnit)) (evV : List (CbEvent JSValue))
      (blockers : PromiseState (List Blocker)) (outcome : PromiseState JSValue)
      (init : PromiseState HyperTrackCordova),
      ((HyperTrack.getDeviceId self evS).2 = some (.rejected err) →
        CbEvent.failure err ∈ evS) ∧
      ((HyperTrack.isRunning self evB).2 = some (.rejected err) →
        CbEvent.failure err ∈ evB) ∧
      ((HyperTrack.isTracking self evB).2 = some (.rejected err) →
        CbEvent.failure err ∈ evB) ∧
      ((HyperTrack.setDeviceName self name evU).2 = some (.rejected err) →
        CbEvent.failure err ∈ evU) ∧
      ((HyperTrack.setDeviceMetadata self metadata evU).2 = some (.rejected err) →
        CbEvent.failure err ∈ evU) ∧
      ((HyperTrack.setTrackingNotificationProperties self title message evU).2 =
          some (.rejected err) → CbEvent.failure err ∈ evU) ∧
      ((HyperTrack.addGeotag self geotagData expectedLocation evU).2 =
          some (.rejected err) → CbEvent.failure err ∈ evU) ∧
      ((HyperTrack.requestPermissionsIfNecessary self evU).2 = some (.rejected err) →
        CbEvent.failure err ∈ evU) ∧
      ((HyperTrack.allowMockLocations self evU).2 = some (.rejected err) →
        CbEvent.failure err ∈ evU) ∧
      ((HyperTrack.syncDeviceSettings self evU).2 = some (.rejected err) →
        CbEvent.failure err ∈ evU) ∧
      ((HyperTrack.start self evU).2 = some (.rejected err) →
        CbEvent.failure err ∈ evU) ∧
      ((HyperTrack.stop self evU).2 = some (.rejected err) →
        CbEvent.failure err ∈ evU) ∧
      ((HyperTrack.setAvailability self isAvailable evU).2 = some (.rejected err) →
        CbEvent.failure err ∈ evU) ∧
      ((HyperTrack.getAvailability self evA).2 = some (.rejected err) →
        CbEvent.failure err ∈ evA) ∧
      ((HyperTrack.disposeTrackingState self evU obs).1.2 = some (.rejected err) →
        CbEvent.failure err ∈ evU) ∧
      ((HyperTrack.disposeAvailabilityState self evU obs).1.2 = some (.rejected err) →
        CbEvent.failure err ∈ evU) ∧
      (StreamEvent.error err ∈ (HyperTrack.trackingStateChange self evV).2.emitted →
        CbEvent.failure err ∈ evV) ∧
      (StreamEvent.error err ∈ (HyperTrack.availabilityStateChange self evV).2.emitted →
        CbEvent.failure err ∈ evV) ∧
      (( HyperTrack.initialize publishableKey init).2 = some (.rejected err) →
        init = some (.rejected err)) ∧
      (( HyperTrack.getBlockers blockers).2 = some (.rejected err) →
        blockers = some (.rejected err)) ∧
      HyperTrack.enableDebugLogging outcome = ([PluginCall.enableDebugLogging], PUnit.unit) := by
  intro self publishableKey name title message metadata geotagData expectedLocation
    isAvailable err obs evS evA evB evU evV blockers outcome init
  have hstream : ∀ ev : List (CbEvent JSValue),
      StreamEvent.error err ∈
        (runCallbacks observerNext observerError ev ObserverState.initial).emitted →
      CbEvent.failure err ∈ ev := by
    intro ev h
    rcases observer_error_only_native ev ObserverState.initial err h with h1 | h1
    · cases h1
    · exact h1
  have hinit : ( HyperTrack.initialize publishableKey init).2 = some (.rejected err) →
      init = some (.rejected err) := by
    intro h
    cases init with
    | none => exact Option.noConfusion h
    | some s =>
        cases s with
        | resolved c => exact Settled.noConfusion (Option.some.inj h)
        | rejected e2 =>
            have h2 : e2 = err := Settled.rejected.inj (Option.some.inj h)
            rw [h2]
  exact ⟨fun h => promiseOfCallbacks_rejected_mem evS err h,
    fun h => promiseOfCallbacks_rejected_mem evB err h,
    fun h => promiseOfCallbacks_rejected_mem evB err h,
    fun h => promiseOfCallbacks_rejected_mem evU err h,
    fun h => promiseOfCallbacks_rejected_mem evU err h,
    fun h => promiseOfCallbacks_rejected_mem evU err h,
    fun h => promiseOfCallbacks_rejected_mem evU err h,
    fun h => promiseOfCallbacks_rejected_mem evU err h,
    fun h => promiseOfCallbacks_rejected_mem evU err h,
    fun h => promiseOfCallbacks_rejected_mem evU err h,
    fun h => promiseOfCallbacks_rejected_mem evU err h,
    fun h => promiseOfCallbacks_rejected_mem evU err h,
    fun h => promiseOfCallbacks_rejected_mem evU err h,
    fun h => promiseOfCallbacks_rejected_mem evA err h,
    fun h => promiseOfCallbacks_rejected_mem evU err h,
    fun h => promiseOfCallbacks_rejected_mem evU err h,
    fun h => hstream evV h,
    fun h => hstream evV h,
    hinit,
    fun h => h,
    rfl⟩

/-- C7: `initialize` resolves, when the native plugin promise resolves
with a handle, with a `HyperTrack` instance wrapping exactly that handle,
after the single plugin invocation carrying the publishable key;
`getDeviceId` on the returned instance forwards to that same handle (for
example resolving a delivered `"device-123"`); a native rejection passes
through unchanged. -/
theorem C7_acquire_then_query :
    ∀ (publishableKey : String) (handle : HyperTrackCordova) (err : JSError)
      (native : List (CbEvent String)),
      ( HyperTrack.initialize publishableKey (some (.resolved handle))).2 =
        some (.resolved ⟨handle⟩) ∧
      ( HyperTrack.initialize publishableKey (some (.resolved handle))).1 =
        [ PluginCall.initSdk publishableKey] ∧
      (HyperTrack.getDeviceId ⟨handle⟩ native).1 = [(handle, NativeCall.getDeviceId)] ∧
      (HyperTrack.getDeviceId ⟨handle⟩ [.success "device-123"]).2 =
        some (.resolved "device-123") ∧
      ( HyperTrack.initialize publishableKey (some (.rejected err))).2 =
        some (.rejected err) := by
  intros
  exact ⟨rfl, rfl, rfl, rfl, rfl⟩
